import Mathlib

/-
  Verification of the DC RTCC backend (src/backend/{main,crud,models,database}.py)
  against its natural-language specification.

  The Python code is shallowly embedded: each relevant Python function is
  translated to an executable Lean definition over explicit state.  Machine
  strings are `String` (or `List Char` where character-level parsing matters),
  timestamps are rationals (seconds), fallible Python code returns `Except`.
-/

namespace RTCC

/-! ## ConnectionManager (src/backend/main.py, lines 50-69)

A `WebSocket` models one connected client; `sendOk` says whether
`send_text` on that connection succeeds or raises. -/

structure WebSocket where
  id : Nat
  sendOk : Bool
deriving DecidableEq

/-- Embeds `websocket.send_text(message)`: succeeds or raises per `sendOk`. -/
def sendText (c : WebSocket) (_message : String) : Except Unit Unit :=
  if c.sendOk then Except.ok () else Except.error ()

/-- Python `list.remove(x)`: removes the first occurrence of `x`;
raises `ValueError` if `x` is absent.  `ConnectionManager.disconnect`
(main.py line 58-59) is exactly `self.active_connections.remove(websocket)`. -/
def listRemove (ws : WebSocket) : List WebSocket → Except String (List WebSocket)
  | [] => Except.error "ValueError"
  | c :: cs =>
    if c = ws then Except.ok cs
    else (listRemove ws cs).map (fun l => c :: l)

/-- `ConnectionManager.disconnect` (main.py lines 58-59). -/
def disconnect (active_connections : List WebSocket) (ws : WebSocket) :
    Except String (List WebSocket) :=
  listRemove ws active_connections

/-- The `for connection in self.active_connections: try: send except: pass`
loop of `ConnectionManager.broadcast` (main.py lines 64-69).  Returns the
connections whose send succeeded; a failed send is swallowed by the bare
`except: pass`. -/
def broadcastLoop (message : String) : List WebSocket → List WebSocket
  | [] => []
  | c :: cs =>
    match sendText c message with
    | Except.ok _ => c :: broadcastLoop message cs
    | Except.error _ => broadcastLoop message cs

structure BroadcastResult where
  delivered : List WebSocket
  connections : List WebSocket
deriving DecidableEq

/-- `ConnectionManager.broadcast` (main.py lines 64-69): iterates the live
set sending to each connection; the method never mutates
`self.active_connections`, so the registry after the call is the registry
before it. -/
def broadcast (active_connections : List WebSocket) (message : String) :
    BroadcastResult :=
  { delivered := broadcastLoop message active_connections
  , connections := active_connections }

/-! ## Data model (src/backend/models.py, src/backend/database.py)

Enumerations are stored in the database as their string `.value`; payload
models mirror the pydantic classes.  A pydantic optional field is
`Option (Option _)`: the outer layer is "present in the payload"
(`exclude_unset`), the inner layer is an explicit JSON null.  Timestamps
are rationals (seconds since the epoch); identifiers that the code parses
character by character are `List Char`. -/

abbrev PyStr := List Char

inductive IncidentType
  | medical | fire | police | traffic | other
deriving DecidableEq

def IncidentType.val : IncidentType → String
  | medical => "medical"
  | fire => "fire"
  | police => "police"
  | traffic => "traffic"
  | other => "other"

inductive Priority
  | low | medium | high | critical
deriving DecidableEq

def Priority.val : Priority → String
  | low => "low"
  | medium => "medium"
  | high => "high"
  | critical => "critical"

inductive IncidentStatus
  | active | pending | resolved
deriving DecidableEq

def IncidentStatus.val : IncidentStatus → String
  | active => "active"
  | pending => "pending"
  | resolved => "resolved"

inductive UnitType
  | police | fire | ems | traffic
deriving DecidableEq

def UnitType.val : UnitType → String
  | police => "police"
  | fire => "fire"
  | ems => "ems"
  | traffic => "traffic"

inductive UnitStatus
  | available | responding | busy | maintenance
deriving DecidableEq

def UnitStatus.val : UnitStatus → String
  | available => "available"
  | responding => "responding"
  | busy => "busy"
  | maintenance => "maintenance"

inductive TrafficIncidentType
  | accident | congestion | construction | weather
deriving DecidableEq

def TrafficIncidentType.val : TrafficIncidentType → String
  | accident => "accident"
  | congestion => "congestion"
  | construction => "construction"
  | weather => "weather"

inductive Severity
  | low | medium | high
deriving DecidableEq

def Severity.val : Severity → String
  | low => "low"
  | medium => "medium"
  | high => "high"

structure Location where
  lat : ℚ
  lng : ℚ
deriving DecidableEq

/-- Row of the `incidents` table (database.py lines 16-33).  Nullable
columns are `Option`. -/
structure Incident where
  id : Nat
  incident_id : PyStr
  type : String
  priority : String
  status : String
  location : Location
  description : Option String
  assigned_units : Option (List String)
  created_at : ℚ
  updated_at : ℚ
  resolved_at : Option ℚ
  notes : Option String
deriving DecidableEq

/-- Row of the `emergency_units` table (database.py lines 35-49). -/
structure EmergencyUnit where
  id : Nat
  unit_id : String
  type : String
  status : String
  location : Location
  description : Option String
  current_incident_id : Option String
  last_updated : ℚ
  is_active : Option Bool
deriving DecidableEq

/-- Row of the `traffic_incidents` table (database.py lines 64-77). -/
structure TrafficIncident where
  id : Nat
  incident_id : PyStr
  type : String
  severity : String
  location : Location
  description : Option String
  affected_roads : Option (List String)
  estimated_duration : Option Nat
  created_at : ℚ
  resolved_at : Option ℚ
  is_active : Option Bool
deriving DecidableEq

/-- Row of the `system_logs` table (database.py lines 79-87); the f-string
interpolation of the log message and the JSON `data` column are elided —
no claim inspects them. -/
structure SystemLog where
  id : Nat
  timestamp : ℚ
  level : String
  category : String
  message : String
deriving DecidableEq

structure IncidentCreate where
  type : IncidentType
  priority : Priority
  status : IncidentStatus
  location : Location
  description : String
  notes : Option String
deriving DecidableEq

structure IncidentUpdate where
  type : Option (Option IncidentType)
  priority : Option (Option Priority)
  status : Option (Option IncidentStatus)
  location : Option (Option Location)
  description : Option (Option String)
  notes : Option (Option String)
  assigned_units : Option (Option (List String))
deriving DecidableEq

structure EmergencyUnitCreate where
  unit_id : String
  type : UnitType
  status : UnitStatus
  location : Location
  description : String
deriving DecidableEq

structure EmergencyUnitUpdate where
  type : Option (Option UnitType)
  status : Option (Option UnitStatus)
  location : Option (Option Location)
  description : Option (Option String)
  current_incident_id : Option (Option String)
  is_active : Option (Option Bool)
deriving DecidableEq

structure TrafficIncidentCreate where
  type : TrafficIncidentType
  severity : Severity
  location : Location
  description : String
  affected_roads : List String
  estimated_duration : Nat
deriving DecidableEq

structure TrafficIncidentUpdate where
  type : Option (Option TrafficIncidentType)
  severity : Option (Option Severity)
  location : Option (Option Location)
  description : Option (Option String)
  affected_roads : Option (Option (List String))
  estimated_duration : Option (Option Nat)
  is_active : Option (Option Bool)
deriving DecidableEq

structure SystemLogCreate where
  level : String
  category : String
  message : String
deriving DecidableEq

/-- The database.  Each table is a list of rows kept in insertion (primary
key) order; the `*Seq` counters model the autoincrementing primary keys. -/
structure Store where
  incidents : List Incident
  units : List EmergencyUnit
  traffic : List TrafficIncident
  logs : List SystemLog
  incSeq : Nat
  unitSeq : Nat
  trafficSeq : Nat
  logSeq : Nat
deriving DecidableEq

def emptyStore : Store :=
  { incidents := [], units := [], traffic := [], logs := []
  , incSeq := 0, unitSeq := 0, trafficSeq := 0, logSeq := 0 }

/-! ## Sequential identifier allocation (crud.py lines 15-22 and 208-215)

`f"INC-{last_num + 1:03d}"` and `int(incident_id.split('-')[1])` are
embedded at the character level. -/

/-- Python `str(n)` for a non-negative integer: big-endian decimal digits. -/
def natToChars (n : Nat) : PyStr :=
  if n = 0 then ['0'] else (Nat.digits 10 n).reverse.map Nat.digitChar

/-- The `:03d` format: left-pad with zeros to a minimum width of 3; wider
numbers keep their natural width. -/
def pad3 (s : PyStr) : PyStr := List.replicate (3 - s.length) '0' ++ s

def incPfx : PyStr := ['I', 'N', 'C']

def trafficPfx : PyStr := ['T', 'R', 'A', 'F', 'F', 'I', 'C']

/-- An allocated identifier: `f"{p}-{n:03d}"`. -/
def fmtId (p : PyStr) (n : Nat) : PyStr := p ++ '-' :: pad3 (natToChars n)

/-- Python `str.split('-')` with a single-character separator. -/
def splitDash : PyStr → List PyStr
  | [] => [[]]
  | c :: cs =>
    if c = '-' then [] :: splitDash cs
    else
      match splitDash cs with
      | [] => [[c]]
      | t :: ts => (c :: t) :: ts

def charDigit (c : Char) : Nat := c.toNat - 48

/-- Python `int(s)` on a string of decimal digits (the only inputs the code
ever parses; the exception branch of `int` is never reached). -/
def pyInt (s : PyStr) : Nat := Nat.ofDigits 10 (s.map charDigit).reverse

/-- The numeric suffix the code reads off an identifier:
`int(incident_id.split('-')[1])`. -/
def suffixOf (incident_id : PyStr) : Nat :=
  pyInt ((splitDash incident_id).getD 1 [])

/-- `query.order_by(Model.id.desc()).first()`: the row with the greatest
primary key (ids are unique; on the head row the head is kept). -/
def maxIdRow {α : Type} (getId : α → Nat) : List α → Option α
  | [] => none
  | x :: xs =>
    match maxIdRow getId xs with
    | none => some x
    | some y => if getId y ≤ getId x then some x else some y

/-! ## CRUD operations (src/backend/crud.py) -/

/-- crud.create_incident (crud.py lines 15-37); `now` is
`datetime.utcnow()` at row creation. -/
def create_incident (s : Store) (incident : IncidentCreate) (now : ℚ) :
    Incident × Store :=
  let incident_id :=
    match maxIdRow (fun i => i.id) s.incidents with
    | some last_incident => fmtId incPfx (suffixOf last_incident.incident_id + 1)
    | none => ['I', 'N', 'C', '-', '0', '0', '1']
  let db_incident : Incident :=
    { id := s.incSeq + 1
    , incident_id := incident_id
    , type := incident.type.val
    , priority := incident.priority.val
    , status := incident.status.val
    , location := incident.location
    , description := some incident.description
    , assigned_units := some []
    , created_at := now
    , updated_at := now
    , resolved_at := none
    , notes := incident.notes }
  (db_incident,
    { s with incidents := s.incidents ++ [db_incident], incSeq := s.incSeq + 1 })

/-- crud.get_incident (crud.py lines 39-40): first row matching the id. -/
def get_incident (s : Store) (incident_id : PyStr) : Option Incident :=
  s.incidents.find? (fun i => decide (i.incident_id = incident_id))

/-- Python truthiness filter: `if status: query = query.filter(...)` —
`None` and the empty string both skip the filter. -/
def filterTruthy {α : Type} (field : α → String) (v : Option String)
    (q : List α) : List α :=
  match v with
  | none => q
  | some st => if st = "" then q else q.filter (fun x => decide (field x = st))

/-- crud.get_incidents (crud.py lines 42-56). -/
def get_incidents (s : Store) (skip limit : Nat)
    (status type : Option String) : List Incident :=
  let q := filterTruthy (fun i => i.status) status s.incidents
  let q := filterTruthy (fun i => i.type) type q
  (q.drop skip).take limit

/-- `db.commit()` after `setattr` on a fetched row: the first row with the
matching key is replaced in place. -/
def commitReplace {α κ : Type} [DecidableEq κ] (key : α → κ) :
    List α → κ → α → List α
  | [], _, _ => []
  | r :: rs, k, r' => if key r = k then r' :: rs else r :: commitReplace key rs k r'

/-- `db.delete(row)` on the first row fetched for a key: that row is
removed, the rest of the table is untouched. -/
def deleteRow {α κ : Type} [DecidableEq κ] (key : α → κ) :
    List α → κ → List α
  | [], _ => []
  | r :: rs, k => if key r = k then rs else r :: deleteRow key rs k

/-- crud.update_incident (crud.py lines 58-84).  The `Except.error` branch
is the `update_data['type'].value` / `.dict()` call raising
`AttributeError` when the payload field was explicitly null; it fires
before any `setattr`, so the store is unchanged there.  `Except.ok none`
is the not-found path. -/
def update_incident (s : Store) (incident_id : PyStr) (u : IncidentUpdate)
    (now : ℚ) : Except String (Option Incident) × Store :=
  match get_incident s incident_id with
  | none => (Except.ok none, s)
  | some db_incident =>
    if u.type = some none ∨ u.priority = some none ∨ u.status = some none ∨
        u.location = some none then
      (Except.error "AttributeError", s)
    else
      let statusResolved : Bool :=
        match u.status with
        | some (some st) => decide (st.val = "resolved")
        | _ => false
      let inc' : Incident :=
        { db_incident with
          type := match u.type with
            | some (some v) => v.val
            | _ => db_incident.type
        , priority := match u.priority with
            | some (some v) => v.val
            | _ => db_incident.priority
        , status := match u.status with
            | some (some v) => v.val
            | _ => db_incident.status
        , location := match u.location with
            | some (some v) => v
            | _ => db_incident.location
        , description := match u.description with
            | some v => v
            | none => db_incident.description
        , notes := match u.notes with
            | some v => v
            | none => db_incident.notes
        , assigned_units := match u.assigned_units with
            | some v => v
            | none => db_incident.assigned_units
        , resolved_at := if statusResolved then some now else db_incident.resolved_at
        , updated_at := now }
      (Except.ok (some inc'),
        { s with incidents := commitReplace (fun i => i.incident_id) s.incidents incident_id inc' })

/-- crud.delete_incident (crud.py lines 86-93). -/
def delete_incident (s : Store) (incident_id : PyStr) : Bool × Store :=
  match get_incident s incident_id with
  | none => (false, s)
  | some _ =>
    (true,
      { s with
        incidents := deleteRow (fun i => i.incident_id) s.incidents incident_id })

/-- crud.create_emergency_unit (crud.py lines 96-107).  Unit ids are
caller-supplied. -/
def create_emergency_unit (s : Store) (unit : EmergencyUnitCreate) (now : ℚ) :
    EmergencyUnit × Store :=
  let db_unit : EmergencyUnit :=
    { id := s.unitSeq + 1
    , unit_id := unit.unit_id
    , type := unit.type.val
    , status := unit.status.val
    , location := unit.location
    , description := some unit.description
    , current_incident_id := none
    , last_updated := now
    , is_active := some true }
  (db_unit, { s with units := s.units ++ [db_unit], unitSeq := s.unitSeq + 1 })

/-- crud.get_emergency_unit (crud.py lines 109-110). -/
def get_emergency_unit (s : Store) (unit_id : String) : Option EmergencyUnit :=
  s.units.find? (fun u => decide (u.unit_id = unit_id))

/-- crud.get_emergency_units (crud.py lines 112-129). -/
def get_emergency_units (s : Store) (skip limit : Nat)
    (status type : Option String) (active_only : Bool) : List EmergencyUnit :=
  let q := filterTruthy (fun u => u.status) status s.units
  let q := filterTruthy (fun u => u.type) type q
  let q := if active_only then q.filter (fun u => decide (u.is_active = some true)) else q
  (q.drop skip).take limit

/-- crud.update_emergency_unit (crud.py lines 131-153); the error branch is
the `.value` / `.dict()` `AttributeError` on an explicitly-null enum or
location field, raised before any `setattr`. -/
def update_emergency_unit (s : Store) (unit_id : String)
    (u : EmergencyUnitUpdate) (now : ℚ) :
    Except String (Option EmergencyUnit) × Store :=
  match get_emergency_unit s unit_id with
  | none => (Except.ok none, s)
  | some db_unit =>
    if u.type = some none ∨ u.status = some none ∨ u.location = some none then
      (Except.error "AttributeError", s)
    else
      let unit' : EmergencyUnit :=
        { db_unit with
          type := match u.type with
            | some (some v) => v.val
            | _ => db_unit.type
        , status := match u.status with
            | some (some v) => v.val
            | _ => db_unit.status
        , location := match u.location with
            | some (some v) => v
            | _ => db_unit.location
        , description := match u.description with
            | some v => v
            | none => db_unit.description
        , current_incident_id := match u.current_incident_id with
            | some v => v
            | none => db_unit.current_incident_id
        , is_active := match u.is_active with
            | some v => v
            | none => db_unit.is_active
        , last_updated := now }
      (Except.ok (some unit'),
        { s with units := commitReplace (fun x => x.unit_id) s.units unit_id unit' })

/-- crud.delete_emergency_unit (crud.py lines 155-162). -/
def delete_emergency_unit (s : Store) (unit_id : String) : Bool × Store :=
  match get_emergency_unit s unit_id with
  | none => (false, s)
  | some _ =>
    (true,
      { s with units := deleteRow (fun x => x.unit_id) s.units unit_id })

/-- crud.create_traffic_incident (crud.py lines 208-229). -/
def create_traffic_incident (s : Store) (traffic_incident : TrafficIncidentCreate)
    (now : ℚ) : TrafficIncident × Store :=
  let incident_id :=
    match maxIdRow (fun t => t.id) s.traffic with
    | some last_incident => fmtId trafficPfx (suffixOf last_incident.incident_id + 1)
    | none => ['T', 'R', 'A', 'F', 'F', 'I', 'C', '-', '0', '0', '1']
  let db_traffic_incident : TrafficIncident :=
    { id := s.trafficSeq + 1
    , incident_id := incident_id
    , type := traffic_incident.type.val
    , severity := traffic_incident.severity.val
    , location := traffic_incident.location
    , description := some traffic_incident.description
    , affected_roads := some traffic_incident.affected_roads
    , estimated_duration := some traffic_incident.estimated_duration
    , created_at := now
    , resolved_at := none
    , is_active := some true }
  (db_traffic_incident,
    { s with traffic := s.traffic ++ [db_traffic_incident], trafficSeq := s.trafficSeq + 1 })

/-- crud.get_traffic_incident (crud.py lines 231-232). -/
def get_traffic_incident (s : Store) (incident_id : PyStr) : Option TrafficIncident :=
  s.traffic.find? (fun t => decide (t.incident_id = incident_id))

/-- crud.get_traffic_incidents (crud.py lines 234-245). -/
def get_traffic_incidents (s : Store) (skip limit : Nat) (active_only : Bool) :
    List TrafficIncident :=
  let q := if active_only then s.traffic.filter (fun t => decide (t.is_active = some true)) else s.traffic
  (q.drop skip).take limit

/-- crud.update_traffic_incident (crud.py lines 247-267); note that no
timestamp field is touched (the traffic table has no `updated_at`). -/
def update_traffic_incident (s : Store) (incident_id : PyStr)
    (u : TrafficIncidentUpdate) : Except String (Option TrafficIncident) × Store :=
  match get_traffic_incident s incident_id with
  | none => (Except.ok none, s)
  | some db_traffic_incident =>
    if u.type = some none ∨ u.severity = some none ∨ u.location = some none then
      (Except.error "AttributeError", s)
    else
      let t' : TrafficIncident :=
        { db_traffic_incident with
          type := match u.type with
            | some (some v) => v.val
            | _ => db_traffic_incident.type
        , severity := match u.severity with
            | some (some v) => v.val
            | _ => db_traffic_incident.severity
        , location := match u.location with
            | some (some v) => v
            | _ => db_traffic_incident.location
        , description := match u.description with
            | some v => v
            | none => db_traffic_incident.description
        , affected_roads := match u.affected_roads with
            | some v => v
            | none => db_traffic_incident.affected_roads
        , estimated_duration := match u.estimated_duration with
            | some v => v
            | none => db_traffic_incident.estimated_duration
        , is_active := match u.is_active with
            | some v => v
            | none => db_traffic_incident.is_active }
      (Except.ok (some t'),
        { s with traffic := commitReplace (fun x => x.incident_id) s.traffic incident_id t' })

/-- crud.resolve_traffic_incident (crud.py lines 269-279). -/
def resolve_traffic_incident (s : Store) (incident_id : PyStr) (now : ℚ) :
    Option TrafficIncident × Store :=
  match get_traffic_incident s incident_id with
  | none => (none, s)
  | some db_traffic_incident =>
    let t' := { db_traffic_incident with is_active := some false, resolved_at := some now }
    (some t',
      { s with traffic := commitReplace (fun x => x.incident_id) s.traffic incident_id t' })

/-- crud.create_system_log (crud.py lines 282-292). -/
def create_system_log (s : Store) (log : SystemLogCreate) (now : ℚ) :
    SystemLog × Store :=
  let db_log : SystemLog :=
    { id := s.logSeq + 1
    , timestamp := now
    , level := log.level
    , category := log.category
    , message := log.message }
  (db_log, { s with logs := s.logs ++ [db_log], logSeq := s.logSeq + 1 })

/-! ## Dashboard statistics (crud.py lines 311-357) -/

/-- `func.date(ts)`: the calendar day of a timestamp, as days since the
epoch. -/
def pyDate (t : ℚ) : ℤ := ⌊t / 86400⌋

structure DashboardStats where
  active_incidents : Nat
  available_units : Nat
  responding_units : Nat
  traffic_issues : Nat
  total_incidents_today : Nat
  average_response_time : ℚ
deriving DecidableEq

/-- Python `round(x, 2)` rounds ties to even (banker's rounding). -/
def roundHalfEven (q : ℚ) : ℤ :=
  if q - ⌊q⌋ < 1 / 2 then ⌊q⌋
  else if 1 / 2 < q - ⌊q⌋ then ⌊q⌋ + 1
  else if ⌊q⌋ % 2 = 0 then ⌊q⌋ else ⌊q⌋ + 1

def pyRound2 (q : ℚ) : ℚ := (roundHalfEven (q * 100) : ℚ) / 100

/-- The accumulation loop of get_dashboard_stats (crud.py lines 340-346):
`total_response_time` in minutes and `count` over the fetched rows (the
inner `if incident.resolved_at:` truthiness check repeats the SQL filter). -/
def sumRespTimes : List Incident → ℚ × Nat
  | [] => (0, 0)
  | i :: is =>
    let (total, count) := sumRespTimes is
    match i.resolved_at with
    | some r => (total + (r - i.created_at) / 60, count + 1)
    | none => (total, count)

/-- crud.get_dashboard_stats (crud.py lines 311-357); `now` is
`datetime.utcnow()`. -/
def get_dashboard_stats (s : Store) (now : ℚ) : DashboardStats :=
  let today := pyDate now
  let resolved_incidents :=
    s.incidents.filter (fun i => decide (i.status = "resolved" ∧ i.resolved_at ≠ none))
  let (total_response_time, count) := sumRespTimes resolved_incidents
  let average_response_time : ℚ :=
    if 0 < count then total_response_time / (count : ℚ) else 0
  { active_incidents := (s.incidents.filter (fun i => decide (i.status = "active"))).length
  , available_units :=
      (s.units.filter (fun u => decide (u.status = "available" ∧ u.is_active = some true))).length
  , responding_units :=
      (s.units.filter (fun u => decide (u.status = "responding" ∧ u.is_active = some true))).length
  , traffic_issues := (s.traffic.filter (fun t => decide (t.is_active = some true))).length
  , total_incidents_today :=
      (s.incidents.filter (fun i => decide (pyDate i.created_at = today))).length
  , average_response_time := pyRound2 average_response_time }

/-! ## WebSocket endpoint (main.py lines 185-212) -/

structure InitMessage where
  incidents : List Incident
  units : List EmergencyUnit
  traffic : List TrafficIncident
deriving DecidableEq

inductive WsMessage
  | init (payload : InitMessage)
  | ping (timestamp : ℚ)
deriving DecidableEq

/-- The first message `websocket_endpoint` sends after accepting a
connection (main.py lines 192-202): the three queries are all issued with
`limit=50` and library defaults (`skip=0`, no status/type filter,
`active_only=True` for units and traffic). -/
def websocketFirstMessage (s : Store) : InitMessage :=
  { incidents := get_incidents s 0 50 none none
  , units := get_emergency_units s 0 50 none none true
  , traffic := get_traffic_incidents s 0 50 true }

/-- The message sequence of `websocket_endpoint` against a fixed store:
the init snapshot, then one ping per 30-second sleep. -/
def websocketMessages (s : Store) (pingTimes : List ℚ) : List WsMessage :=
  WsMessage.init (websocketFirstMessage s) :: pingTimes.map WsMessage.ping

/-! ## Request handlers (main.py lines 236-468)

Each handler is a function of the store returning the HTTP outcome, the
store after the call, and the list of events passed to
`manager.broadcast`, in order. -/

inductive Event
  | incident_created (incident : Incident)
  | incident_updated (incident : Incident)
  | incident_deleted (incident_id : PyStr)
  | unit_updated (unit : EmergencyUnit)
  | traffic_created (incident : TrafficIncident)
  | traffic_updated (incident : TrafficIncident)
  | traffic_resolved (incident : TrafficIncident)
deriving DecidableEq

structure HandlerOut (α : Type) where
  result : Except Nat α
  db : Store
  events : List Event

/-- POST /api/incidents (main.py lines 236-255): create, write a system
log, broadcast `incident_created`. -/
def create_incident_api (s : Store) (incident : IncidentCreate) (now : ℚ) :
    HandlerOut Incident :=
  let (db_incident, s1) := create_incident s incident now
  let (_, s2) := create_system_log s1
    { level := "info", category := "incident", message := "New incident created" } now
  { result := Except.ok db_incident
  , db := s2
  , events := [Event.incident_created db_incident] }

/-- GET /api/incidents/{id} (main.py lines 257-263): 404 when absent. -/
def get_incident_api (s : Store) (incident_id : PyStr) : HandlerOut Incident :=
  match get_incident s incident_id with
  | none => { result := Except.error 404, db := s, events := [] }
  | some incident => { result := Except.ok incident, db := s, events := [] }

/-- PUT /api/incidents/{id} (main.py lines 265-278): 404 when absent,
otherwise broadcast `incident_updated`; an exception inside
`update_incident` surfaces as a 500 with no broadcast. -/
def update_incident_api (s : Store) (incident_id : PyStr) (u : IncidentUpdate)
    (now : ℚ) : HandlerOut Incident :=
  match update_incident s incident_id u now with
  | (Except.error _, s') => { result := Except.error 500, db := s', events := [] }
  | (Except.ok none, s') => { result := Except.error 404, db := s', events := [] }
  | (Except.ok (some incident), s') =>
    { result := Except.ok incident
    , db := s'
    , events := [Event.incident_updated incident] }

/-- DELETE /api/incidents/{id} (main.py lines 280-293): 404 when absent,
otherwise broadcast `incident_deleted` with the identifier. -/
def delete_incident_api (s : Store) (incident_id : PyStr) : HandlerOut Unit :=
  match delete_incident s incident_id with
  | (false, s') => { result := Except.error 404, db := s', events := [] }
  | (true, s') =>
    { result := Except.ok ()
    , db := s'
    , events := [Event.incident_deleted incident_id] }

/-- POST /api/units (main.py lines 307-320): create and write a system
log.  This handler performs NO broadcast call. -/
def create_unit_api (s : Store) (unit : EmergencyUnitCreate) (now : ℚ) :
    HandlerOut EmergencyUnit :=
  let (db_unit, s1) := create_emergency_unit s unit now
  let (_, s2) := create_system_log s1
    { level := "info", category := "unit", message := "New emergency unit created" } now
  { result := Except.ok db_unit, db := s2, events := [] }

/-- PUT /api/units/{id} (main.py lines 330-343): 404 when absent,
otherwise broadcast `unit_updated`. -/
def update_unit_api (s : Store) (unit_id : String) (u : EmergencyUnitUpdate)
    (now : ℚ) : HandlerOut EmergencyUnit :=
  match update_emergency_unit s unit_id u now with
  | (Except.error _, s') => { result := Except.error 500, db := s', events := [] }
  | (Except.ok none, s') => { result := Except.error 404, db := s', events := [] }
  | (Except.ok (some unit'), s') =>
    { result := Except.ok unit', db := s', events := [Event.unit_updated unit'] }

/-- DELETE /api/units/{id} (main.py lines 345-352): 404 when absent.
This handler performs NO broadcast call. -/
def delete_unit_api (s : Store) (unit_id : String) : HandlerOut Unit :=
  match delete_emergency_unit s unit_id with
  | (false, s') => { result := Except.error 404, db := s', events := [] }
  | (true, s') => { result := Except.ok (), db := s', events := [] }

/-- Validated body of PUT /api/units/{id}/status. -/
structure UnitStatusUpdate where
  status : UnitStatus
  location : Option Location
deriving DecidableEq

/-- PUT /api/units/{id}/status (main.py lines 354-373): 404 when absent,
otherwise update status (and location when given) and broadcast
`unit_updated`. -/
def update_unit_status_api (s : Store) (unit_id : String)
    (status_update : UnitStatusUpdate) (now : ℚ) : HandlerOut EmergencyUnit :=
  match get_emergency_unit s unit_id with
  | none => { result := Except.error 404, db := s, events := [] }
  | some _ =>
    let unit_update : EmergencyUnitUpdate :=
      { type := none
      , status := some (some status_update.status)
      , location := match status_update.location with
          | some l => some (some l)
          | none => none
      , description := none
      , current_incident_id := none
      , is_active := none }
    match update_emergency_unit s unit_id unit_update now with
    | (Except.ok (some updated_unit), s') =>
      { result := Except.ok updated_unit
      , db := s'
      , events := [Event.unit_updated updated_unit] }
    | (_, s') => { result := Except.error 500, db := s', events := [] }

/-- POST /api/traffic (main.py lines 411-430): create, write a system log,
broadcast `traffic_created`. -/
def create_traffic_incident_api (s : Store) (incident : TrafficIncidentCreate)
    (now : ℚ) : HandlerOut TrafficIncident :=
  let (db_incident, s1) := create_traffic_incident s incident now
  let (_, s2) := create_system_log s1
    { level := "info", category := "traffic", message := "New traffic incident created" } now
  { result := Except.ok db_incident
  , db := s2
  , events := [Event.traffic_created db_incident] }

/-- PUT /api/traffic/{id} (main.py lines 440-453). -/
def update_traffic_incident_api (s : Store) (incident_id : PyStr)
    (u : TrafficIncidentUpdate) : HandlerOut TrafficIncident :=
  match update_traffic_incident s incident_id u with
  | (Except.error _, s') => { result := Except.error 500, db := s', events := [] }
  | (Except.ok none, s') => { result := Except.error 404, db := s', events := [] }
  | (Except.ok (some incident), s') =>
    { result := Except.ok incident
    , db := s'
    , events := [Event.traffic_updated incident] }

/-- POST /api/traffic/{id}/resolve (main.py lines 455-468). -/
def resolve_traffic_incident_api (s : Store) (incident_id : PyStr) (now : ℚ) :
    HandlerOut TrafficIncident :=
  match resolve_traffic_incident s incident_id now with
  | (none, s') => { result := Except.error 404, db := s', events := [] }
  | (some incident, s') =>
    { result := Except.ok incident
    , db := s'
    , events := [Event.traffic_resolved incident] }

/-! ## Background simulator (main.py lines 483-555)

The claims about the simulator are pure control-flow claims about what
happens when a Store operation raises, so the store calls of one tick are
abstracted by an oracle giving each call's outcome; payload contents are
irrelevant and elided.  One tick is the body of the `try:` block:
unit movement, then incident synthesis, then traffic synthesis, with the
`except` clause logging any error. -/

structure TickOracle where
  getUnitsOutcome : Except Unit (List String)
  unitUpdateOutcome : String → Except Unit Unit
  incidentRoll : Bool
  createIncidentOutcome : Except Unit Unit
  trafficRoll : Bool
  createTrafficOutcome : Except Unit Unit

structure TickTrace where
  unitsMoved : List String
  incidentCreated : Bool
  trafficCreated : Bool
  errorLogged : Bool
  events : List String
deriving DecidableEq

/-- The unit-movement loop (main.py lines 491-501): units updated before a
failing `update_emergency_unit` stay updated; the first failure aborts the
loop with the exception propagating. -/
def moveUnits (upd : String → Except Unit Unit) : List String → List String × Bool
  | [] => ([], false)
  | u :: us =>
    match upd u with
    | Except.error _ => ([], true)
    | Except.ok _ =>
      let (moved, failed) := moveUnits upd us
      (u :: moved, failed)

/-- Traffic-synthesis step of a tick (main.py lines 527-550). -/
def tickTrafficStep (o : TickOracle) (moved : List String) (incCreated : Bool)
    (evs : List String) : TickTrace :=
  if o.trafficRoll then
    match o.createTrafficOutcome with
    | Except.error _ =>
      { unitsMoved := moved, incidentCreated := incCreated, trafficCreated := false
      , errorLogged := true, events := evs }
    | Except.ok _ =>
      { unitsMoved := moved, incidentCreated := incCreated, trafficCreated := true
      , errorLogged := false, events := evs ++ ["traffic_created"] }
  else
    { unitsMoved := moved, incidentCreated := incCreated, trafficCreated := false
    , errorLogged := false, events := evs }

/-- Incident-synthesis step of a tick (main.py lines 503-525), followed by
the traffic step. -/
def tickIncidentStep (o : TickOracle) (moved : List String) : TickTrace :=
  if o.incidentRoll then
    match o.createIncidentOutcome with
    | Except.error _ =>
      { unitsMoved := moved, incidentCreated := false, trafficCreated := false
      , errorLogged := true, events := [] }
    | Except.ok _ => tickTrafficStep o moved true ["incident_created"]
  else tickTrafficStep o moved false []

/-- One iteration of `simulate_real_time_updates` (main.py lines 485-555):
the `try:` body runs unit movement, incident synthesis, traffic synthesis
in order; the `except Exception` clause catches any store error, logs it
(`errorLogged`) and falls through to the sleep. -/
def tick (o : TickOracle) : TickTrace :=
  match o.getUnitsOutcome with
  | Except.error _ =>
    { unitsMoved := [], incidentCreated := false, trafficCreated := false
    , errorLogged := true, events := [] }
  | Except.ok units =>
    let (moved, failed) := moveUnits o.unitUpdateOutcome units
    if failed then
      { unitsMoved := moved, incidentCreated := false, trafficCreated := false
      , errorLogged := true, events := [] }
    else tickIncidentStep o moved

/-- The `while True:` loop over a finite schedule of ticks: every scheduled
tick executes, whatever earlier ticks did. -/
def simulateLoop : List TickOracle → List TickTrace
  | [] => []
  | o :: os => tick o :: simulateLoop os

/-! ## Create sequences for identifier allocation (claim C4) -/

inductive CreateOp
  | inc (c : IncidentCreate) (now : ℚ)
  | traffic (c : TrafficIncidentCreate) (now : ℚ)

/-- Run a sequence of creates (possibly interleaving the two entity
classes) against a store through the normal create path. -/
def runCreates : Store → List CreateOp → Store
  | s, [] => s
  | s, CreateOp.inc c now :: ops => runCreates (create_incident s c now).2 ops
  | s, CreateOp.traffic c now :: ops => runCreates (create_traffic_incident s c now).2 ops

/-- Greatest numeric suffix among a list of allocated identifiers
(0 when none exist). -/
def maxSuffix (ids : List PyStr) : Nat := (ids.map suffixOf).foldr max 0

/-- The store reached from the empty store by a create sequence. -/
def reachStore (ops : List CreateOp) : Store := runCreates emptyStore ops

/-! ## Invariants for reachable stores (proof infrastructure for C4) -/

/-- After `n` creates, row `k` of the incidents table has primary key
`k + 1` and identifier `INC-` followed by `k + 1` zero-padded. -/
abbrev IncTableInv (l : List Incident) : Prop :=
  ∀ k (hk : k < l.length),
    (l.get ⟨k, hk⟩).id = k + 1 ∧ (l.get ⟨k, hk⟩).incident_id = fmtId incPfx (k + 1)

/-- Same shape for the traffic table. -/
abbrev TrafficTableInv (l : List TrafficIncident) : Prop :=
  ∀ k (hk : k < l.length),
    (l.get ⟨k, hk⟩).id = k + 1 ∧ (l.get ⟨k, hk⟩).incident_id = fmtId trafficPfx (k + 1)

/-- Invariant of every store reachable from `emptyStore` by creates. -/
def StoreInv (s : Store) : Prop :=
  s.incSeq = s.incidents.length ∧ IncTableInv s.incidents ∧
    s.trafficSeq = s.traffic.length ∧ TrafficTableInv s.traffic

/-! ## Concrete inputs for witnesses and counterexamples -/

/-- A one-row incident table for witnesses: `INC-001`, active, created at
time 0. -/
def wIncident : Incident :=
  { id := 1
  , incident_id := ['I', 'N', 'C', '-', '0', '0', '1']
  , type := "medical"
  , priority := "high"
  , status := "active"
  , location := { lat := 38, lng := -77 }
  , description := some "Medical emergency"
  , assigned_units := some []
  , created_at := 0
  , updated_at := 0
  , resolved_at := none
  , notes := some "note" }

def wStore : Store := { emptyStore with incidents := [wIncident], incSeq := 1 }

/-- Payload that only sets `priority` (for the C9 witness). -/
def wUpdPriority : IncidentUpdate :=
  { type := none, priority := some (some Priority.critical), status := none
  , location := none, description := none, notes := none, assigned_units := none }

/-- The row `update_incident wStore _ wUpdPriority 5` writes back. -/
def wIncidentAfterPriority : Incident :=
  { wIncident with priority := "critical", updated_at := 5 }

/-- Payload that only sets `status` to resolved (for the C10 witness). -/
def wUpdResolve : IncidentUpdate :=
  { type := none, priority := none, status := some (some IncidentStatus.resolved)
  , location := none, description := none, notes := none, assigned_units := none }

/-- The row `update_incident wStore _ wUpdResolve 5` writes back. -/
def wIncidentAfterResolve : Incident :=
  { wIncident with status := "resolved", resolved_at := some 5, updated_at := 5 }

/-- An inactive (resolved) traffic incident: filtered out of the
websocket init snapshot (C6 counterexample). -/
def ceResolvedTraffic : TrafficIncident :=
  { id := 1
  , incident_id := ['T', 'R', 'A', 'F', 'F', 'I', 'C', '-', '0', '0', '1']
  , type := "accident"
  , severity := "low"
  , location := { lat := 38, lng := -77 }
  , description := some "closed lane"
  , affected_roads := some []
  , estimated_duration := some 30
  , created_at := 0
  , resolved_at := some 600
  , is_active := some false }

def ceStoreInactiveTraffic : Store :=
  { emptyStore with traffic := [ceResolvedTraffic], trafficSeq := 1 }

/-- An incident resolved 100 seconds after creation: its response time is
5/3 minutes, which `round(_, 2)` cannot represent (C7 counterexample). -/
def ceResolved100s : Incident :=
  { wIncident with status := "resolved", resolved_at := some 100, updated_at := 100 }

def ceStore100s : Store := { emptyStore with incidents := [ceResolved100s], incSeq := 1 }

/-- An incident resolved exactly 10 minutes after creation. -/
def wResolved10min : Incident :=
  { wIncident with status := "resolved", resolved_at := some 600, updated_at := 600 }

def wStore10min : Store := { emptyStore with incidents := [wResolved10min], incSeq := 1 }

/-- A fresh emergency-unit payload (C1 counterexample). -/
def ceUnitCreate : EmergencyUnitCreate :=
  { unit_id := "PD-009"
  , type := UnitType.police
  , status := UnitStatus.available
  , location := { lat := 38, lng := -77 }
  , description := "Metro Police Unit 9" }

/-- A unit row for the C1 delete counterexample. -/
def ceUnitRow : EmergencyUnit :=
  { id := 1
  , unit_id := "PD-001"
  , type := "police"
  , status := "available"
  , location := { lat := 38, lng := -77 }
  , description := some "Metro Police Unit 1"
  , current_incident_id := none
  , last_updated := 0
  , is_active := some true }

def ceUnitStore : Store := { emptyStore with units := [ceUnitRow], unitSeq := 1 }

/-- Tick oracle in which the unit-movement store write fails while the
incident synthesis was due to fire (C5 counterexample). -/
def ceTickOracle : TickOracle :=
  { getUnitsOutcome := Except.ok ["FD-001"]
  , unitUpdateOutcome := fun _ => Except.error ()
  , incidentRoll := true
  , createIncidentOutcome := Except.ok ()
  , trafficRoll := true
  , createTrafficOutcome := Except.ok () }

/-! ### Theorems for C2 and C3 -/

theorem broadcastLoop_eq_filter (message : String) (l : List WebSocket) :
    broadcastLoop message l = l.filter (fun c => c.sendOk) := by
  induction l with
  | nil => rfl
  | cons c cs ih =>
    by_cases h : c.sendOk <;>
      simp [broadcastLoop, sendText, h, List.filter, ih]

/-- C2 counterexample: publish with a failing subscriber registered.  The
failure is swallowed and the healthy subscriber is served, but the failed
subscriber is NOT unregistered: it is still in the live set afterwards,
contradicting the claim that a send failure unregisters the subscriber. -/
theorem broadcast_failed_subscriber_not_unregistered :
    let bad : WebSocket := ⟨0, false⟩
    let good : WebSocket := ⟨1, true⟩
    (broadcast [bad, good] "event").delivered = [good] ∧
      bad ∈ (broadcast [bad, good] "event").connections := by
  constructor
  · rfl
  · simp [broadcast]

/-- C2 amended: for every registry and message, a failing send is swallowed
(`broadcast` is total, no exception reaches the caller), every subscriber
whose send succeeds receives the message, and the registry is left exactly
as it was — in particular the failed subscriber remains registered. -/
theorem broadcast_swallows_failures_and_keeps_registry
    (m : List WebSocket) (message : String) :
    (broadcast m message).delivered = m.filter (fun c => c.sendOk) ∧
      (broadcast m message).connections = m := by
  exact ⟨broadcastLoop_eq_filter message m, rfl⟩

/-- C3 counterexample: unregistering a subscriber absent from the live set
is not a no-op — `list.remove` raises `ValueError` on the empty registry,
so `disconnect` is not idempotent. -/
theorem disconnect_absent_raises :
    disconnect [] ⟨0, true⟩ = Except.error "ValueError" ∧
      disconnect [] ⟨0, true⟩ ≠ Except.ok [] := by
  exact ⟨rfl, by simp [disconnect, listRemove]⟩

/-- C3 amended: for every registry state, unregistering a subscriber that is
absent from the live set raises `ValueError` (rather than being a silent
no-op); no registry value is returned. -/
theorem disconnect_absent_always_raises
    (m : List WebSocket) (ws : WebSocket) (h : ws ∉ m) :
    disconnect m ws = Except.error "ValueError" := by
  induction m with
  | nil => rfl
  | cons c cs ih =>
    have hne : c ≠ ws := fun hc => h (hc ▸ List.mem_cons_self c cs)
    have hcs : ws ∉ cs := fun hc => h (List.mem_cons_of_mem c hc)
    have ih' : listRemove ws cs = Except.error "ValueError" := ih hcs
    show listRemove ws (c :: cs) = _
    simp [listRemove, hne, ih', Except.map]

theorem disconnect_absent_always_raises_witness :
    (⟨5, true⟩ : WebSocket) ∉ ([⟨0, false⟩] : List WebSocket) ∧
      disconnect [⟨0, false⟩] ⟨5, true⟩ = Except.error "ValueError" := by
  refine ⟨by decide, disconnect_absent_always_raises _ _ (by decide)⟩

/-! ### Theorems for C1 -/

/-- C1 counterexample: POST /api/units commits its mutation (the new unit
row is in the store afterwards and the handler returns it), yet the
handler emits no broadcast event at all — not the exactly-one event of
matching kind the claim requires.  DELETE /api/units/{id} likewise
deletes the row and emits nothing. -/
theorem unit_create_and_delete_emit_no_event :
    (create_unit_api emptyStore ceUnitCreate 0).events = [] ∧
      (create_unit_api emptyStore ceUnitCreate 0).db.units
        = [(create_emergency_unit emptyStore ceUnitCreate 0).1] ∧
      (create_unit_api emptyStore ceUnitCreate 0).result
        = Except.ok (create_emergency_unit emptyStore ceUnitCreate 0).1 ∧
      (delete_unit_api ceUnitStore "PD-001").events = [] ∧
      (delete_unit_api ceUnitStore "PD-001").db.units = [] ∧
      (delete_unit_api ceUnitStore "PD-001").result = Except.ok () := by
  exact ⟨rfl, rfl, rfl, rfl, rfl, rfl⟩

/-- C1 amended: on the request path, incident create/update/delete, unit
update and status-update, and traffic create/update/resolve each emit
exactly one broadcast event of the matching kind when the mutation
succeeds and none when it fails (404 or an exception), while unit create
and unit delete never emit any event; reads emit none. -/
theorem request_path_event_emission
    (s : Store) (ic : IncidentCreate) (iu : IncidentUpdate) (iid : PyStr)
    (uc : EmergencyUnitCreate) (uu : EmergencyUnitUpdate) (uid : String)
    (su : UnitStatusUpdate) (tc : TrafficIncidentCreate)
    (tu : TrafficIncidentUpdate) (tid : PyStr) (now : ℚ) :
    (create_incident_api s ic now).events
        = [Event.incident_created (create_incident s ic now).1] ∧
    (get_incident_api s iid).events = [] ∧
    (update_incident_api s iid iu now).events
        = (match (update_incident_api s iid iu now).result with
           | Except.ok i => [Event.incident_updated i]
           | Except.error _ => []) ∧
    (delete_incident_api s iid).events
        = (match (delete_incident_api s iid).result with
           | Except.ok _ => [Event.incident_deleted iid]
           | Except.error _ => []) ∧
    (create_unit_api s uc now).events = [] ∧
    (update_unit_api s uid uu now).events
        = (match (update_unit_api s uid uu now).result with
           | Except.ok u => [Event.unit_updated u]
           | Except.error _ => []) ∧
    (delete_unit_api s uid).events = [] ∧
    (update_unit_status_api s uid su now).events
        = (match (update_unit_status_api s uid su now).result with
           | Except.ok u => [Event.unit_updated u]
           | Except.error _ => []) ∧
    (create_traffic_incident_api s tc now).events
        = [Event.traffic_created (create_traffic_incident s tc now).1] ∧
    (update_traffic_incident_api s tid tu).events
        = (match (update_traffic_incident_api s tid tu).result with
           | Except.ok t => [Event.traffic_updated t]
           | Except.error _ => []) ∧
    (resolve_traffic_incident_api s tid now).events
        = (match (resolve_traffic_incident_api s tid now).result with
           | Except.ok t => [Event.traffic_resolved t]
           | Except.error _ => []) := by
  refine ⟨rfl, ?_, ?_, ?_, rfl, ?_, ?_, ?_, rfl, ?_, ?_⟩
  · cases hg : get_incident s iid <;> simp [get_incident_api, hg]
  · rcases hu : update_incident s iid iu now with ⟨e | o, s'⟩
    · simp [update_incident_api, hu]
    · cases o <;> simp [update_incident_api, hu]
  · rcases hd : delete_incident s iid with ⟨b, s'⟩
    cases b <;> simp [delete_incident_api, hd]
  · rcases hu : update_emergency_unit s uid uu now with ⟨e | o, s'⟩
    · simp [update_unit_api, hu]
    · cases o <;> simp [update_unit_api, hu]
  · rcases hd : delete_emergency_unit s uid with ⟨b, s'⟩
    cases b <;> simp [delete_unit_api, hd]
  · cases hg : get_emergency_unit s uid with
    | none => simp [update_unit_status_api, hg]
    | some u0 =>
      rcases hu : update_emergency_unit s uid
          { type := none
          , status := some (some su.status)
          , location := match su.location with
              | some l => some (some l)
              | none => none
          , description := none
          , current_incident_id := none
          , is_active := none } now with ⟨e | o, s'⟩
      · simp [update_unit_status_api, hg, hu]
      · cases o <;> simp [update_unit_status_api, hg, hu]
  · rcases hu : update_traffic_incident s tid tu with ⟨e | o, s'⟩
    · simp [update_traffic_incident_api, hu]
    · cases o <;> simp [update_traffic_incident_api, hu]
  · rcases hr : resolve_traffic_incident s tid now with ⟨o, s'⟩
    cases o <;> simp [resolve_traffic_incident_api, hr]

/-! ### Theorems for C5 -/

theorem moveUnits_all_ok (us : List String) :
    moveUnits (fun _ => Except.ok ()) us = (us, false) := by
  induction us with
  | nil => rfl
  | cons u us ih => simp [moveUnits, ih]

/-- C5 counterexample: in `ceTickOracle` the unit-movement store write
raises while the incident-synthesis random draw fired and its create would
succeed.  The claim says the tick continues to its next step, so the
incident would be synthesized; in the code the single `try:` wraps the
whole tick, so the error is logged and the incident and traffic steps are
skipped. -/
theorem simulator_error_does_not_continue_tick :
    (tick ceTickOracle).errorLogged = true ∧
      ceTickOracle.incidentRoll = true ∧
      ceTickOracle.createIncidentOutcome = Except.ok () ∧
      (tick ceTickOracle).incidentCreated = false ∧
      (tick ceTickOracle).trafficCreated = false ∧
      (tick ceTickOracle).events = [] := by
  exact ⟨rfl, rfl, rfl, rfl, rfl, rfl⟩

/-- C5 amended: a Store error during a tick is caught and logged and the
REMAINING steps of that tick are skipped (whichever step raised), while
the loop itself continues: every scheduled tick executes regardless of
what earlier ticks did, so the simulator never terminates because of a
store failure. -/
theorem simulator_failure_logged_rest_of_tick_skipped_loop_continues
    (f : String → Except Unit Unit) (r1 r2 : Bool) (c1 c2 : Except Unit Unit)
    (u : String) (us : List String) (o : TickOracle) (os : List TickOracle) :
    tick { getUnitsOutcome := Except.error (), unitUpdateOutcome := f
         , incidentRoll := r1, createIncidentOutcome := c1
         , trafficRoll := r2, createTrafficOutcome := c2 }
      = { unitsMoved := [], incidentCreated := false, trafficCreated := false
        , errorLogged := true, events := [] } ∧
    tick { getUnitsOutcome := Except.ok (u :: us)
         , unitUpdateOutcome := fun _ => Except.error ()
         , incidentRoll := r1, createIncidentOutcome := c1
         , trafficRoll := r2, createTrafficOutcome := c2 }
      = { unitsMoved := [], incidentCreated := false, trafficCreated := false
        , errorLogged := true, events := [] } ∧
    tick { getUnitsOutcome := Except.ok us
         , unitUpdateOutcome := fun _ => Except.ok ()
         , incidentRoll := true, createIncidentOutcome := Except.error ()
         , trafficRoll := r2, createTrafficOutcome := c2 }
      = { unitsMoved := us, incidentCreated := false, trafficCreated := false
        , errorLogged := true, events := [] } ∧
    tick { getUnitsOutcome := Except.ok us
         , unitUpdateOutcome := fun _ => Except.ok ()
         , incidentRoll := false, createIncidentOutcome := c1
         , trafficRoll := true, createTrafficOutcome := Except.error () }
      = { unitsMoved := us, incidentCreated := false, trafficCreated := false
        , errorLogged := true, events := [] } ∧
    simulateLoop (o :: os) = tick o :: simulateLoop os := by
  refine ⟨rfl, ?_, ?_, ?_, rfl⟩
  · simp [tick, moveUnits]
  · simp [tick, moveUnits_all_ok, tickIncidentStep]
  · simp [tick, moveUnits_all_ok, tickIncidentStep, tickTrafficStep]

/-! ### Theorems for C6 -/

/-- C6 counterexample: the store holds one traffic incident, but it is
inactive (`is_active = False`), and the init snapshot omits it — the
first message's payload is not the full list of all traffic incidents in
the store. -/
theorem websocket_init_not_full_snapshot :
    websocketMessages ceStoreInactiveTraffic []
        = [WsMessage.init (websocketFirstMessage ceStoreInactiveTraffic)] ∧
      (websocketFirstMessage ceStoreInactiveTraffic).traffic = [] ∧
      ceStoreInactiveTraffic.traffic = [ceResolvedTraffic] := by
  exact ⟨rfl, rfl, rfl⟩

/-- C6 amended: the first message sent to a new subscriber is an `init`
event, and its payload is the first 50 incidents, the first 50 ACTIVE
units, and the first 50 ACTIVE traffic incidents of the store (each query
is issued with `limit=50`, and the unit/traffic queries default to
`active_only=True`). -/
theorem websocket_first_message_capped_active_snapshot
    (s : Store) (pingTimes : List ℚ) :
    (websocketMessages s pingTimes).head?
        = some (WsMessage.init (websocketFirstMessage s)) ∧
      (websocketFirstMessage s).incidents = s.incidents.take 50 ∧
      (websocketFirstMessage s).units
        = (s.units.filter (fun u => decide (u.is_active = some true))).take 50 ∧
      (websocketFirstMessage s).traffic
        = (s.traffic.filter (fun t => decide (t.is_active = some true))).take 50 := by
  refine ⟨rfl, ?_, ?_, ?_⟩ <;>
    simp [websocketFirstMessage, get_incidents, get_emergency_units,
      get_traffic_incidents, filterTruthy]

/-! ### Theorems for C7 -/

theorem pyRound2_zero : pyRound2 0 = 0 := by
  norm_num [pyRound2, roundHalfEven]

theorem sumRespTimes_eq (l : List Incident) (h : ∀ i ∈ l, i.resolved_at ≠ none) :
    sumRespTimes l
      = ((l.map (fun i => (i.resolved_at.getD 0 - i.created_at) / 60)).sum, l.length) := by
  induction l with
  | nil => rfl
  | cons i is ih =>
    have hi := h i (List.mem_cons_self i is)
    have his : ∀ j ∈ is, j.resolved_at ≠ none := fun j hj => h j (List.mem_cons_of_mem i hj)
    cases hri : i.resolved_at with
    | none => exact absurd hri hi
    | some r =>
      simp only [sumRespTimes, ih his, hri, List.map_cons, List.sum_cons,
        List.length_cons, Option.getD_some]
      exact Prod.ext (by ring) rfl

/-- C7 counterexample: one incident resolved 100 seconds after creation.
The mean response time is 5/3 minutes, but the endpoint returns
`round(5/3, 2) = 1.67`, so the stats field does not equal the mean. -/
theorem average_response_time_not_exact_mean :
    ceStore100s.incidents = [ceResolved100s] ∧
      ceResolved100s.status = "resolved" ∧
      ceResolved100s.resolved_at = some 100 ∧
      ceResolved100s.created_at = 0 ∧
      ((100 : ℚ) - 0) / 60 = 5 / 3 ∧
      (get_dashboard_stats ceStore100s 0).average_response_time = 167 / 100 ∧
      (167 / 100 : ℚ) ≠ 5 / 3 := by
  refine ⟨rfl, rfl, rfl, rfl, by norm_num, ?_, by norm_num⟩
  have hfil : ceStore100s.incidents.filter
      (fun i => decide (i.status = "resolved" ∧ i.resolved_at ≠ none))
      = [ceResolved100s] := by decide
  simp only [get_dashboard_stats, hfil, sumRespTimes, ceResolved100s, wIncident]
  norm_num [pyRound2, roundHalfEven]

/-- C7 amended: `average_response_time` equals the mean response time in
minutes over resolved incidents with a non-null `resolved_at`, ROUNDED to
two decimal places with Python's banker's rounding; it is exactly 0 when
no such incident exists, and exactly 10 for a single incident resolved 10
minutes (600 seconds) after creation. -/
theorem average_response_time_is_rounded_mean (s : Store) (now : ℚ) :
    (get_dashboard_stats s now).average_response_time
      = (if (s.incidents.filter
              (fun i => decide (i.status = "resolved" ∧ i.resolved_at ≠ none))).length = 0
         then 0
         else pyRound2
            (((s.incidents.filter
                (fun i => decide (i.status = "resolved" ∧ i.resolved_at ≠ none))).map
                  (fun i => (i.resolved_at.getD 0 - i.created_at) / 60)).sum
              / ((s.incidents.filter
                  (fun i => decide (i.status = "resolved" ∧ i.resolved_at ≠ none))).length : ℚ))) ∧
      (get_dashboard_stats wStore10min now).average_response_time = 10 := by
  constructor
  · have hR : ∀ i ∈ s.incidents.filter
        (fun i => decide (i.status = "resolved" ∧ i.resolved_at ≠ none)),
        i.resolved_at ≠ none := by
      intro i hi
      have := (List.mem_filter.mp hi).2
      simp at this
      exact this.2
    simp only [get_dashboard_stats]
    rw [sumRespTimes_eq _ hR]
    by_cases h0 : (s.incidents.filter
        (fun i => decide (i.status = "resolved" ∧ i.resolved_at ≠ none))).length = 0
    · rw [h0]
      norm_num [pyRound2_zero]
    · rw [if_neg h0]
      exact congrArg pyRound2 (if_pos (Nat.pos_of_ne_zero h0))
  · have hfil : wStore10min.incidents.filter
        (fun i => decide (i.status = "resolved" ∧ i.resolved_at ≠ none))
        = [wResolved10min] := by decide
    simp only [get_dashboard_stats, hfil, sumRespTimes, wResolved10min, wIncident]
    norm_num [pyRound2, roundHalfEven]

/-! ### Theorems for C8 -/

/-- C8 confirmed: for an incident identifier absent from the store, GET,
PUT and DELETE on /api/incidents/{id} all return 404, leave the store
exactly as it was, and emit no broadcast event. -/
theorem absent_incident_id_is_404_no_mutation_no_event
    (s : Store) (iid : PyStr) (u : IncidentUpdate) (now : ℚ)
    (h : ∀ i ∈ s.incidents, i.incident_id ≠ iid) :
    get_incident_api s iid = { result := Except.error 404, db := s, events := [] } ∧
      update_incident_api s iid u now
        = { result := Except.error 404, db := s, events := [] } ∧
      delete_incident_api s iid
        = { result := Except.error 404, db := s, events := [] } := by
  have hg : get_incident s iid = none := by
    simp only [get_incident, List.find?_eq_none]
    intro i hi
    simpa using h i hi
  refine ⟨?_, ?_, ?_⟩ <;>
    simp [get_incident_api, update_incident_api, update_incident,
      delete_incident_api, delete_incident, hg]

theorem absent_incident_id_is_404_witness :
    (∀ i ∈ wStore.incidents, i.incident_id ≠ ['X']) ∧
      get_incident_api wStore ['X']
        = { result := Except.error 404, db := wStore, events := [] } := by
  have h := absent_incident_id_is_404_no_mutation_no_event wStore ['X']
    wUpdPriority 0 (by decide)
  exact ⟨by decide, h.1⟩

/-! ### Theorems for C9 and C10 -/

/-- C9 confirmed: a successful PUT /api/incidents/{id} update changes only
the fields explicitly present in the payload, plus `updated_at` (always
set to the update time) and `resolved_at` exactly when the payload sets
status to resolved; `id`, `incident_id` and `created_at` always keep
their previous values, every unset field keeps its previous value, and
the store change is precisely the replacement of that one row. -/
theorem update_incident_frame
    (s : Store) (iid : PyStr) (u : IncidentUpdate) (now : ℚ)
    (old inc' : Incident) (s' : Store)
    (hold : get_incident s iid = some old)
    (hupd : update_incident s iid u now = (Except.ok (some inc'), s')) :
    inc'.id = old.id ∧
    inc'.incident_id = old.incident_id ∧
    inc'.created_at = old.created_at ∧
    (u.type = none → inc'.type = old.type) ∧
    (u.priority = none → inc'.priority = old.priority) ∧
    (u.status = none → inc'.status = old.status) ∧
    (u.location = none → inc'.location = old.location) ∧
    (u.description = none → inc'.description = old.description) ∧
    (u.notes = none → inc'.notes = old.notes) ∧
    (u.assigned_units = none → inc'.assigned_units = old.assigned_units) ∧
    inc'.updated_at = now ∧
    (u.status = some (some IncidentStatus.resolved) → inc'.resolved_at = some now) ∧
    (∀ st, u.status = some (some st) → st ≠ IncidentStatus.resolved →
      inc'.resolved_at = old.resolved_at) ∧
    (u.status = none → inc'.resolved_at = old.resolved_at) ∧
    s' = { s with incidents := commitReplace (fun i => i.incident_id) s.incidents iid inc' } := by
  simp only [update_incident, hold] at hupd
  by_cases hg : u.type = some none ∨ u.priority = some none ∨ u.status = some none ∨
      u.location = some none
  · rw [if_pos hg] at hupd
    simp at hupd
  · rw [if_neg hg] at hupd
    simp only [Prod.mk.injEq, Except.ok.injEq, Option.some.injEq] at hupd
    obtain ⟨hinc, hs⟩ := hupd
    subst hinc
    subst hs
    refine ⟨rfl, rfl, rfl, ?_, ?_, ?_, ?_, ?_, ?_, ?_, rfl, ?_, ?_, ?_, rfl⟩
    · intro h; simp [h]
    · intro h; simp [h]
    · intro h; simp [h]
    · intro h; simp [h]
    · intro h; simp [h]
    · intro h; simp [h]
    · intro h; simp [h]
    · intro h; simp [h, IncidentStatus.val]
    · intro st hst hne
      cases st with
      | active => simp [hst, IncidentStatus.val]
      | pending => simp [hst, IncidentStatus.val]
      | resolved => exact absurd rfl hne
    · intro h; simp [h]

theorem update_incident_frame_witness :
    get_incident wStore wIncident.incident_id = some wIncident ∧
      update_incident wStore wIncident.incident_id wUpdPriority 5
        = (Except.ok (some wIncidentAfterPriority),
           { wStore with incidents := [wIncidentAfterPriority] }) ∧
      wIncidentAfterPriority.notes = wIncident.notes ∧
      wIncidentAfterPriority.created_at = wIncident.created_at := by
  have h := update_incident_frame wStore wIncident.incident_id wUpdPriority 5
    wIncident wIncidentAfterPriority
    { wStore with incidents := [wIncidentAfterPriority] } rfl rfl
  exact ⟨rfl, rfl, h.2.2.2.2.2.2.2.2.1 rfl, h.2.2.1⟩

/-- C10 confirmed: a successful update whose payload sets `status` to
resolved writes `resolved_at := now` (non-null, the update time); an
update whose payload does not set `status` leaves `resolved_at`
unchanged. -/
theorem update_status_resolved_sets_resolved_at
    (s : Store) (iid : PyStr) (u : IncidentUpdate) (now : ℚ)
    (old inc' : Incident) (s' : Store)
    (hold : get_incident s iid = some old)
    (hupd : update_incident s iid u now = (Except.ok (some inc'), s')) :
    (u.status = some (some IncidentStatus.resolved) → inc'.resolved_at = some now) ∧
      (u.status = none → inc'.resolved_at = old.resolved_at) := by
  simp only [update_incident, hold] at hupd
  by_cases hg : u.type = some none ∨ u.priority = some none ∨ u.status = some none ∨
      u.location = some none
  · rw [if_pos hg] at hupd
    simp at hupd
  · rw [if_neg hg] at hupd
    simp only [Prod.mk.injEq, Except.ok.injEq, Option.some.injEq] at hupd
    obtain ⟨hinc, hs⟩ := hupd
    subst hinc
    constructor
    · intro h; simp [h, IncidentStatus.val]
    · intro h; simp [h]

theorem update_status_resolved_witness :
    get_incident wStore wIncident.incident_id = some wIncident ∧
      wUpdResolve.status = some (some IncidentStatus.resolved) ∧
      update_incident wStore wIncident.incident_id wUpdResolve 5
        = (Except.ok (some wIncidentAfterResolve),
           { wStore with incidents := [wIncidentAfterResolve] }) ∧
      wIncidentAfterResolve.resolved_at = some 5 := by
  have h := update_status_resolved_sets_resolved_at wStore wIncident.incident_id
    wUpdResolve 5 wIncident wIncidentAfterResolve
    { wStore with incidents := [wIncidentAfterResolve] } rfl rfl
  exact ⟨rfl, rfl, rfl, h.1 rfl⟩

/-! ### Theorems for C4: identifier parsing and formatting -/

theorem digitChar_ne_dash : ∀ d, d < 10 → Nat.digitChar d ≠ '-' := by decide

theorem charDigit_digitChar : ∀ d, d < 10 → charDigit (Nat.digitChar d) = d := by decide

theorem dash_not_mem_natToChars (n : Nat) : '-' ∉ natToChars n := by
  unfold natToChars
  split
  · decide
  · intro hmem
    obtain ⟨d, hd, hchar⟩ := List.mem_map.mp hmem
    have hd10 : d < 10 := Nat.digits_lt_base (by norm_num) (List.mem_reverse.mp hd)
    exact digitChar_ne_dash d hd10 hchar

theorem dash_not_mem_pad3 (s : PyStr) (hs : '-' ∉ s) : '-' ∉ pad3 s := by
  unfold pad3
  intro hmem
  rcases List.mem_append.mp hmem with h | h
  · exact absurd (List.eq_of_mem_replicate h) (by decide)
  · exact hs h

theorem splitDash_no_dash (s : PyStr) (hs : '-' ∉ s) : splitDash s = [s] := by
  induction s with
  | nil => rfl
  | cons c cs ih =>
    have hc : ¬ (c = '-') := fun h => hs (h ▸ List.mem_cons_self c cs)
    have hcs : '-' ∉ cs := fun h => hs (List.mem_cons_of_mem c h)
    simp [splitDash, hc, ih hcs]

theorem splitDash_concat (p s : PyStr) (hp : '-' ∉ p) (hs : '-' ∉ s) :
    splitDash (p ++ '-' :: s) = [p, s] := by
  induction p with
  | nil => simp [splitDash, splitDash_no_dash s hs]
  | cons c cp ih =>
    have hc : ¬ (c = '-') := fun h => hp (h ▸ List.mem_cons_self c cp)
    have hp' : '-' ∉ cp := fun h => hp (List.mem_cons_of_mem c h)
    simp [splitDash, hc, ih hp']

theorem ofDigits_replicate_zero (k : Nat) :
    Nat.ofDigits 10 (List.replicate k 0) = 0 := by
  induction k with
  | zero => rfl
  | succ k ih => simp [List.replicate_succ, Nat.ofDigits_cons, ih]

theorem pyInt_pad3_natToChars (n : Nat) : pyInt (pad3 (natToChars n)) = n := by
  unfold pyInt pad3
  rw [List.map_append, List.map_replicate]
  have hch0 : charDigit '0' = 0 := rfl
  rw [hch0, List.reverse_append, List.reverse_replicate]
  rw [Nat.ofDigits_append, ofDigits_replicate_zero, Nat.mul_zero, Nat.add_zero]
  unfold natToChars
  split
  · rename_i h0
    subst h0
    rfl
  · rw [List.map_map, List.map_congr_left, List.map_id, List.reverse_reverse,
      Nat.ofDigits_digits]
    intro d hd
    exact charDigit_digitChar d (Nat.digits_lt_base (by norm_num) (List.mem_reverse.mp hd))

theorem suffixOf_fmtId (p : PyStr) (n : Nat) (hp : '-' ∉ p) :
    suffixOf (fmtId p n) = n := by
  unfold suffixOf fmtId
  rw [splitDash_concat p _ hp (dash_not_mem_pad3 _ (dash_not_mem_natToChars n))]
  exact pyInt_pad3_natToChars n

/-! ### Theorems for C4: the table-shape invariant -/

theorem maxIdRow_concat {α : Type} (getId : α → Nat) (l : List α) (x : α)
    (h : ∀ y ∈ l, getId y < getId x) :
    maxIdRow getId (l ++ [x]) = some x := by
  induction l with
  | nil => rfl
  | cons y l ih =>
    have hy : getId y < getId x := h y (List.mem_cons_self y l)
    have hl : ∀ z ∈ l, getId z < getId x := fun z hz => h z (List.mem_cons_of_mem y hz)
    simp only [List.cons_append, maxIdRow, List.append_eq, ih hl]
    rw [if_neg (Nat.not_le_of_lt hy)]

/-- Shape invariant for a table generated by sequential creates: row `k`
has primary key `k + 1` and identifier `fmtId p (k + 1)`. -/
theorem tableInv_concat {α : Type} (getId : α → Nat) (getIid : α → PyStr)
    (p : PyStr) (l : List α) (x : α)
    (h : ∀ k (hk : k < l.length),
      getId (l.get ⟨k, hk⟩) = k + 1 ∧ getIid (l.get ⟨k, hk⟩) = fmtId p (k + 1))
    (hid : getId x = l.length + 1) (hiid : getIid x = fmtId p (l.length + 1)) :
    ∀ k (hk : k < (l ++ [x]).length),
      getId ((l ++ [x]).get ⟨k, hk⟩) = k + 1 ∧
        getIid ((l ++ [x]).get ⟨k, hk⟩) = fmtId p (k + 1) := by
  intro k hk
  rcases Nat.lt_or_ge k l.length with hlt | hge
  · have hget : (l ++ [x]).get ⟨k, hk⟩ = l.get ⟨k, hlt⟩ := by
      simp only [List.get_eq_getElem]
      exact List.getElem_append_left hlt
    rw [hget]
    exact h k hlt
  · have hk' : k = l.length := by
      have := hk
      simp only [List.length_append, List.length_singleton] at this
      omega
    subst hk'
    have hget : (l ++ [x]).get ⟨l.length, hk⟩ = x := by
      simp [List.get_eq_getElem]
    rw [hget]
    exact ⟨hid, hiid⟩

/-- On a table with the shape invariant, `order_by(id.desc()).first()`
returns the last-created row, whose identifier carries suffix
`l.length`. -/
theorem tableInv_maxIdRow {α : Type} (getId : α → Nat) (getIid : α → PyStr)
    (p : PyStr) (l : List α)
    (h : ∀ k (hk : k < l.length),
      getId (l.get ⟨k, hk⟩) = k + 1 ∧ getIid (l.get ⟨k, hk⟩) = fmtId p (k + 1)) :
    (l = [] ∧ maxIdRow getId l = none) ∨
      ∃ x, maxIdRow getId l = some x ∧ getIid x = fmtId p l.length ∧ l ≠ [] := by
  rcases List.eq_nil_or_concat l with hnil | ⟨L, b, hl⟩
  · exact Or.inl ⟨hnil, by rw [hnil]; rfl⟩
  · have hl' : l = L ++ [b] := by simpa using hl
    subst hl'
    have hb : (L ++ [b]).get ⟨L.length, by simp⟩ = b := by
      simp [List.get_eq_getElem]
    have hbLen : L.length < (L ++ [b]).length := by simp
    have hbfacts := h L.length hbLen
    rw [hb] at hbfacts
    refine Or.inr ⟨b, ?_, ?_, by simp⟩
    · refine maxIdRow_concat getId L b ?_
      intro y hy
      obtain ⟨⟨i, hi⟩, hyi⟩ := List.mem_iff_get.mp hy
      have hgeti : (L ++ [b]).get ⟨i, by simp; omega⟩ = L.get ⟨i, hi⟩ := by
        simp only [List.get_eq_getElem]
        exact List.getElem_append_left hi
      have hidy := (h i (by simp; omega)).1
      rw [hgeti, hyi] at hidy
      rw [hidy, hbfacts.1]
      omega
    · rw [hbfacts.2]
      simp

theorem foldr_max_eq_of_le (A : List Nat) (b : Nat) (h : ∀ a ∈ A, a ≤ b) :
    A.foldr max b = b := by
  induction A with
  | nil => rfl
  | cons a A ih =>
    have ha : a ≤ b := h a (List.mem_cons_self a A)
    have hA : ∀ z ∈ A, z ≤ b := fun z hz => h z (List.mem_cons_of_mem a hz)
    simp [ih hA, Nat.max_eq_right ha]

/-- Greatest already-allocated suffix on a canonical table: exactly its
row count. -/
theorem tableInv_maxSuffix {α : Type} (getId : α → Nat) (getIid : α → PyStr)
    (p : PyStr) (hp : '-' ∉ p) (l : List α)
    (h : ∀ k (hk : k < l.length),
      getId (l.get ⟨k, hk⟩) = k + 1 ∧ getIid (l.get ⟨k, hk⟩) = fmtId p (k + 1)) :
    maxSuffix (l.map getIid) = l.length := by
  induction l using List.reverseRecOn with
  | nil => rfl
  | append_singleton L x ih =>
    have hL : ∀ k (hk : k < L.length),
        getId (L.get ⟨k, hk⟩) = k + 1 ∧ getIid (L.get ⟨k, hk⟩) = fmtId p (k + 1) := by
      intro k hk
      have hget : (L ++ [x]).get ⟨k, by simp; omega⟩ = L.get ⟨k, hk⟩ := by
        simp only [List.get_eq_getElem]
        exact List.getElem_append_left hk
      have := h k (by simp; omega)
      rwa [hget] at this
    have hx : getIid x = fmtId p (L.length + 1) := by
      have hget : (L ++ [x]).get ⟨L.length, by simp⟩ = x := by
        simp [List.get_eq_getElem]
      have := (h L.length (by simp)).2
      rwa [hget] at this
    have hsuffix : suffixOf (getIid x) = L.length + 1 := by
      rw [hx]
      exact suffixOf_fmtId p _ hp
    unfold maxSuffix at ih ⊢
    rw [List.map_append, List.map_append, List.map_map, List.map_map,
      List.foldr_append]
    simp only [List.map_cons, List.map_nil, List.foldr_cons, List.foldr_nil,
      Function.comp]
    rw [hsuffix]
    have hmax0 : (L.length + 1) ⊔ 0 = L.length + 1 := by simp
    rw [hmax0]
    have hbd : ∀ a ∈ List.map (suffixOf ∘ getIid) L, a ≤ L.length + 1 := by
      intro a ha
      obtain ⟨y, hy, hay⟩ := List.mem_map.mp ha
      obtain ⟨⟨i, hi⟩, hyi⟩ := List.mem_iff_get.mp hy
      have hsy : suffixOf (getIid y) = i + 1 := by
        rw [← hyi, (hL i hi).2]
        exact suffixOf_fmtId p _ hp
      simp only [Function.comp] at hay
      omega
    rw [foldr_max_eq_of_le _ _ hbd]
    simp

theorem incLiteral_eq : ['I', 'N', 'C', '-', '0', '0', '1'] = fmtId incPfx 1 := by
  simp [fmtId, incPfx, pad3, natToChars]
  decide

theorem trafficLiteral_eq :
    ['T', 'R', 'A', 'F', 'F', 'I', 'C', '-', '0', '0', '1'] = fmtId trafficPfx 1 := by
  simp [fmtId, trafficPfx, pad3, natToChars]
  decide

theorem storeInv_empty : StoreInv emptyStore := by
  refine ⟨rfl, ?_, rfl, ?_⟩ <;> exact fun k hk => absurd hk (by simp [emptyStore])

/-- The row created by `create_incident` on a canonical store continues
the sequence: primary key and identifier suffix are the row count plus
one. -/
theorem create_incident_row (s : Store) (hInv : StoreInv s) (c : IncidentCreate)
    (now : ℚ) :
    (create_incident s c now).1.id = s.incidents.length + 1 ∧
      (create_incident s c now).1.incident_id = fmtId incPfx (s.incidents.length + 1) := by
  obtain ⟨hseq, hinc, _, _⟩ := hInv
  constructor
  · show s.incSeq + 1 = _
    rw [hseq]
  · rcases tableInv_maxIdRow (fun i => i.id) (fun i => i.incident_id) incPfx
        s.incidents hinc with ⟨hnil, hmax⟩ | ⟨x, hmax, hx, _⟩
    · simp only [create_incident]
      rw [hmax, hnil]
      simp [← incLiteral_eq]
    · simp only [create_incident]
      rw [hmax]
      show fmtId incPfx (suffixOf x.incident_id + 1) = _
      rw [hx, suffixOf_fmtId incPfx _ (by decide)]

theorem create_traffic_row (s : Store) (hInv : StoreInv s)
    (tc : TrafficIncidentCreate) (now : ℚ) :
    (create_traffic_incident s tc now).1.id = s.traffic.length + 1 ∧
      (create_traffic_incident s tc now).1.incident_id
        = fmtId trafficPfx (s.traffic.length + 1) := by
  obtain ⟨_, _, htseq, htr⟩ := hInv
  constructor
  · show s.trafficSeq + 1 = _
    rw [htseq]
  · rcases tableInv_maxIdRow (fun t => t.id) (fun t => t.incident_id) trafficPfx
        s.traffic htr with ⟨hnil, hmax⟩ | ⟨x, hmax, hx, _⟩
    · simp only [create_traffic_incident]
      rw [hmax, hnil]
      simp [← trafficLiteral_eq]
    · simp only [create_traffic_incident]
      rw [hmax]
      show fmtId trafficPfx (suffixOf x.incident_id + 1) = _
      rw [hx, suffixOf_fmtId trafficPfx _ (by decide)]

theorem storeInv_create_incident (s : Store) (h : StoreInv s) (c : IncidentCreate)
    (now : ℚ) : StoreInv (create_incident s c now).2 := by
  obtain ⟨hrow_id, hrow_iid⟩ := create_incident_row s h c now
  obtain ⟨hseq, hinc, htseq, htr⟩ := h
  refine ⟨?_, ?_, htseq, htr⟩
  · show s.incSeq + 1 = (s.incidents ++ [(create_incident s c now).1]).length
    simp [hseq]
  · show IncTableInv (s.incidents ++ [(create_incident s c now).1])
    exact tableInv_concat _ _ _ _ _ hinc hrow_id hrow_iid

theorem storeInv_create_traffic (s : Store) (h : StoreInv s)
    (tc : TrafficIncidentCreate) (now : ℚ) :
    StoreInv (create_traffic_incident s tc now).2 := by
  obtain ⟨hrow_id, hrow_iid⟩ := create_traffic_row s h tc now
  obtain ⟨hseq, hinc, htseq, htr⟩ := h
  refine ⟨hseq, hinc, ?_, ?_⟩
  · show s.trafficSeq + 1 = (s.traffic ++ [(create_traffic_incident s tc now).1]).length
    simp [htseq]
  · show TrafficTableInv (s.traffic ++ [(create_traffic_incident s tc now).1])
    exact tableInv_concat _ _ _ _ _ htr hrow_id hrow_iid

theorem storeInv_runCreates (ops : List CreateOp) (s : Store) (h : StoreInv s) :
    StoreInv (runCreates s ops) := by
  induction ops generalizing s with
  | nil => exact h
  | cons op ops ih =>
    cases op with
    | inc c now => exact ih _ (storeInv_create_incident s h c now)
    | traffic tc now => exact ih _ (storeInv_create_traffic s h tc now)

/-- C4 confirmed: after any sequence of creates from the empty store —
incident and traffic creates interleaving arbitrarily — the next incident
(resp. traffic) identifier allocated is `INC-` (resp. `TRAFFIC-`)
followed by one more than the greatest previously allocated suffix for
that class (1 when none exist), in the `:03d` zero-padded format whose
width grows naturally past 999. -/
theorem allocated_id_suffix_is_max_plus_one
    (ops : List CreateOp) (c : IncidentCreate) (tc : TrafficIncidentCreate)
    (t1 t2 : ℚ) :
    (create_incident (reachStore ops) c t1).1.incident_id
        = fmtId incPfx
            (maxSuffix ((reachStore ops).incidents.map (fun i => i.incident_id)) + 1) ∧
      suffixOf (create_incident (reachStore ops) c t1).1.incident_id
        = maxSuffix ((reachStore ops).incidents.map (fun i => i.incident_id)) + 1 ∧
      (create_traffic_incident (reachStore ops) tc t2).1.incident_id
        = fmtId trafficPfx
            (maxSuffix ((reachStore ops).traffic.map (fun t => t.incident_id)) + 1) ∧
      suffixOf (create_traffic_incident (reachStore ops) tc t2).1.incident_id
        = maxSuffix ((reachStore ops).traffic.map (fun t => t.incident_id)) + 1 := by
  have hInv : StoreInv (reachStore ops) := storeInv_runCreates ops emptyStore storeInv_empty
  have hrowI := create_incident_row (reachStore ops) hInv c t1
  have hrowT := create_traffic_row (reachStore ops) hInv tc t2
  have hmaxI : maxSuffix ((reachStore ops).incidents.map (fun i => i.incident_id))
      = (reachStore ops).incidents.length :=
    tableInv_maxSuffix (fun i => i.id) (fun i => i.incident_id) incPfx (by decide)
      (reachStore ops).incidents hInv.2.1
  have hmaxT : maxSuffix ((reachStore ops).traffic.map (fun t => t.incident_id))
      = (reachStore ops).traffic.length :=
    tableInv_maxSuffix (fun t => t.id) (fun t => t.incident_id) trafficPfx (by decide)
      (reachStore ops).traffic hInv.2.2.2
  refine ⟨?_, ?_, ?_, ?_⟩
  · rw [hrowI.2, hmaxI]
  · rw [hrowI.2, hmaxI, suffixOf_fmtId incPfx _ (by decide)]
  · rw [hrowT.2, hmaxT]
  · rw [hrowT.2, hmaxT, suffixOf_fmtId trafficPfx _ (by decide)]

end RTCC
